import Mathlib

/-!
Verification of the Flood Insights backend (`main.py`).

Numbers are modelled as rationals (`ℚ`); Python list slices, `max`, and
`round(x, ndigits)` (banker's rounding) are embedded explicitly.  The
population standard deviation field of the payload involves an irrational
square root; no claim concerns it, so the payload omits that single field
to keep every definition computable.
-/

namespace FloodInsights

/-- Risk levels, ordered Low < Medium < High. -/
inductive Level where
  | Low
  | Medium
  | High
deriving DecidableEq, Repr

/-- Numeric rank of a level: Low = 0, Medium = 1, High = 2. -/
def Level.toNat : Level → Nat
  | .Low => 0
  | .Medium => 1
  | .High => 2

/-- Floor of a rational, computed as floored integer division of
numerator by denominator. -/
def ratFloor (q : ℚ) : ℤ :=
  Int.fdiv q.num q.den

/-- Python `round` to the nearest integer: round-half-to-even. -/
def pyRoundInt (q : ℚ) : ℤ :=
  let f := ratFloor q
  if q - f < 1/2 then f
  else if 1/2 < q - f then f + 1
  else if f % 2 = 0 then f else f + 1

/-- Python `round(x, 2)`. -/
def round2 (q : ℚ) : ℚ :=
  (pyRoundInt (q * 100) : ℚ) / 100

/-- Python `round(x, 1)`. -/
def round1 (q : ℚ) : ℚ :=
  (pyRoundInt (q * 10) : ℚ) / 10

/-- Python tail slice `l[k:]` for an arbitrary integer index `k`:
a negative `k` counts from the end (clipped at the start by truncated
natural subtraction), a non-negative `k` drops the first `k` elements
(clipped at the end by `List.drop`). -/
def pySliceFrom (k : ℤ) (l : List ℚ) : List ℚ :=
  if k < 0 then l.drop (l.length - (-k).toNat) else l.drop k.toNat

/-- Python `max` over a list, with a default for the empty list
(the source only calls `max` guarded by non-emptiness or a sentinel). -/
def pyMax (l : List ℚ) (d : ℚ) : ℚ :=
  match l with
  | [] => d
  | x :: xs => xs.foldl max x

/-- `compute_rolling` from `main.py`: sum of the last `hours` entries,
rounded to 2 decimals; the whole (rounded) sum when the history is
shorter than the window; `0.0` on an empty list.  `values[-hours:]` is
the Python slice `pySliceFrom (-hours)`. -/
def compute_rolling (values : List ℚ) (hours : ℤ) : ℚ :=
  if values = [] then 0
  else if (values.length : ℤ) < hours then round2 values.sum
  else round2 (pySliceFrom (-hours) values).sum

/-- The spec's words "the last `n` entries of `v`": the final `n`
elements (all of `v` when `n ≥ length v`). -/
def lastEntries (n : Nat) (v : List ℚ) : List ℚ :=
  v.drop (v.length - n)

/-- Result of `summarize_risks`: three levels plus the derived scalars
(`max_temp`, `max_wind`, rounded to 1 decimal in the source). -/
structure RiskSummary where
  flood : Level
  heat : Level
  storm : Level
  max_temp : ℚ
  max_wind : ℚ
deriving DecidableEq, Repr

/-- `summarize_risks` from `main.py`. -/
def summarize_risks (rolling_24 : ℚ) (temps_24 winds_24 : List ℚ) : RiskSummary :=
  let flood_threshold : ℚ := 50.0
  let flood :=
    if rolling_24 ≥ flood_threshold then Level.High
    else if rolling_24 ≥ flood_threshold * 0.6 then Level.Medium
    else Level.Low
  let max_temp := pyMax temps_24 (-999)
  let heat :=
    if max_temp ≥ 40 then Level.High
    else if max_temp ≥ 35 then Level.Medium
    else Level.Low
  let max_wind := pyMax winds_24 0.0
  let storm :=
    if max_wind ≥ 15 then Level.High
    else if max_wind ≥ 8 then Level.Medium
    else Level.Low
  ⟨flood, heat, storm, round1 max_temp, round1 max_wind⟩

/-- Per-risk English clauses appended by `build_bilingual_advisories`
(the `advisory_en` list after all three if/elif chains). -/
def en_clauses (flood heat storm : Level) : List String :=
  (if flood = Level.High then
    ["High flood risk — move livestock/equipment to higher ground."]
  else if flood = Level.Medium then
    ["Medium flood risk — inspect low-lying fields and secure valuables."]
  else
    ["Flood risk is low — normal conditions."]) ++
  (if heat = Level.High then
    ["High heat — avoid field work during midday; stay hydrated."]
  else if heat = Level.Medium then
    ["Moderate heat — take precautions during hot hours."]
  else []) ++
  (if storm = Level.High then
    ["High wind risk — secure shade nets and loose equipment."]
  else if storm = Level.Medium then
    ["Moderate winds — be cautious while working at heights."]
  else [])

/-- The `advisory_hi` clause list: Hindi clauses exist for flood
High/Medium, heat High/Medium and storm High only. -/
def hi_clauses (flood heat storm : Level) : List String :=
  (if flood = Level.High then
    ["उच्च बाढ़ जोखिम — पशुधन और उपकरण सुरक्षित स्थान पर ले जाएं।"]
  else if flood = Level.Medium then
    ["मध्यम बाढ़ जोखिम — निचले क्षेत्रों की जाँच करें और सामान सुरक्षित रखें।"]
  else []) ++
  (if heat = Level.High then
    ["उच्च तापमान — दोपहर के दौरान खेत का काम न करें; पानी पिएं।"]
  else if heat = Level.Medium then
    ["मध्यम तापमान — गर्मी के समय सावधानी रखें।"]
  else []) ++
  (if storm = Level.High then
    ["उच्च हवा जोखिम — नेट और ढीले उपकरण सुरक्षित रखें।"]
  else [])

/-- The `advisory_mr` clause list: Marathi clauses exist for flood
High/Medium, heat High/Medium and storm High only. -/
def mr_clauses (flood heat storm : Level) : List String :=
  (if flood = Level.High then
    ["उच्च पूर धोका — जनावरे व उपकरणे उंच जागी हलवा."]
  else if flood = Level.Medium then
    ["मध्यम पूर धोका — खालच्या शेतांची तपासणी करा व वस्तू सुरक्षित ठेवा."]
  else []) ++
  (if heat = Level.High then
    ["उच्च ताप — दुपारच्या वेळी काम टाळा; पाणी प्या."]
  else if heat = Level.Medium then
    ["मध्यम ताप — गरम वेळेत खबरदारी घ्या."]
  else []) ++
  (if storm = Level.High then
    ["उच्च वारा धोका — जाळी आणि ढीले उपकरण सुरक्षित ठेवा."]
  else [])

/-- The three advisory strings returned by `build_bilingual_advisories`. -/
structure AdvisoryBundle where
  advisory_en : String
  advisory_hi : String
  advisory_mr : String
deriving DecidableEq, Repr

/-- `build_bilingual_advisories` from `main.py`: joins each clause list
with single spaces; an empty Hindi/Marathi list falls back to the joined
English list (Python `" ".join(hi) if hi else " ".join(en)`). -/
def build_bilingual_advisories (risks : RiskSummary) : AdvisoryBundle :=
  let en := en_clauses risks.flood risks.heat risks.storm
  let hi := hi_clauses risks.flood risks.heat risks.storm
  let mr := mr_clauses risks.flood risks.heat risks.storm
  { advisory_en := String.intercalate " " en
    advisory_hi := if hi = [] then String.intercalate " " en else String.intercalate " " hi
    advisory_mr := if mr = [] then String.intercalate " " en else String.intercalate " " mr }

/-- One geocoding match (`results[0]` of the geocoding response). -/
structure Coordinate where
  name : String
  country : String
  lat : ℚ
  lon : ℚ
deriving DecidableEq, Repr

/-- Geocoding provider response: HTTP status plus the `results` list
(absent/None `results` is modelled as the empty list, which Python's
`if not results` treats identically). -/
structure GeoResp where
  status : Nat
  results : List Coordinate
deriving DecidableEq, Repr

/-- The `hourly` object of the forecast provider response. -/
structure Hourly where
  time : List String
  temperature_2m : List ℚ
  precipitation : List ℚ
  relativehumidity_2m : List ℚ
  windspeed_10m : List ℚ
deriving DecidableEq, Repr

/-- Forecast provider response: HTTP status plus the hourly arrays. -/
structure WxResp where
  status : Nat
  hourly : Hourly
deriving DecidableEq, Repr

/-- `geocode_city` from `main.py`, as a function of the provider's
response: 502 on non-success status, 404 on an empty result list,
otherwise the first match.  Errors are the `HTTPException` status codes. -/
def geocode_city (resp : GeoResp) : Except Nat Coordinate :=
  if resp.status ≠ 200 then Except.error 502
  else
    match resp.results with
    | [] => Except.error 404
    | res :: _ => Except.ok res

/-- `fetch_weather` from `main.py`, as a function of the provider's
response: 502 on non-success status, otherwise the body (from which the
orchestrator reads `hourly`). -/
def fetch_weather (resp : WxResp) : Except Nat Hourly :=
  if resp.status ≠ 200 then Except.error 502
  else Except.ok resp.hourly

/-- The payload assembled by `get_full_forecast` (the `precip_std`
field, an irrational square root untouched by any claim, is omitted). -/
structure ForecastPayload where
  location : String
  lat : ℚ
  lon : ℚ
  times : List String
  temperature : List ℚ
  precip : List ℚ
  humidity : List ℚ
  wind : List ℚ
  rolling_24 : ℚ
  rolling_72 : ℚ
  risk : RiskSummary
  advisory_en : String
  advisory_hi : String
  advisory_mr : String
deriving DecidableEq, Repr

/-- `get_full_forecast` from `main.py`, as a function of the city name
and the two upstream responses: resolve, fetch, aggregate, compose.
Upstream failures propagate unchanged. -/
def get_full_forecast (city : String) (geo : GeoResp) (wx : WxResp) :
    Except Nat ForecastPayload := do
  let g ← geocode_city geo
  let w ← fetch_weather wx
  let times := w.time
  let temps := w.temperature_2m
  let precip := w.precipitation
  let humidity := w.relativehumidity_2m
  let wind := w.windspeed_10m
  let rolling_24 := compute_rolling precip 24
  let rolling_72 := compute_rolling precip 72
  let temps_24 := if temps.length ≥ 24 then temps.drop (temps.length - 24) else temps
  let winds_24 := if wind.length ≥ 24 then wind.drop (wind.length - 24) else wind
  let risk_summary := summarize_risks rolling_24 temps_24 winds_24
  let advisories := build_bilingual_advisories risk_summary
  pure
    { location := g.name ++ ", " ++ g.country
      lat := g.lat
      lon := g.lon
      times := times
      temperature := temps
      precip := precip
      humidity := humidity
      wind := wind
      rolling_24 := rolling_24
      rolling_72 := rolling_72
      risk := risk_summary
      advisory_en := advisories.advisory_en
      advisory_hi := advisories.advisory_hi
      advisory_mr := advisories.advisory_mr }

/-- `GET /city_forecast` handler: 400 on an empty `city` (Python
`if not city`), otherwise `get_full_forecast`. -/
def city_forecast (city : String) (geo : GeoResp) (wx : WxResp) :
    Except Nat ForecastPayload :=
  if city = "" then Except.error 400
  else get_full_forecast city geo wx

/-- The CSV produced by `export_csv`: the five hourly columns plus the
download filename. -/
structure CsvExport where
  time : List String
  temperature_C : List ℚ
  precip_mm : List ℚ
  humidity_pct : List ℚ
  wind_m_s : List ℚ
  filename : String
deriving DecidableEq, Repr

/-- `GET /export_csv` handler: calls `get_full_forecast` directly —
note there is no empty-`city` check — and tabulates the hourly series. -/
def export_csv (city : String) (geo : GeoResp) (wx : WxResp) :
    Except Nat CsvExport := do
  let data ← get_full_forecast city geo wx
  pure
    { time := data.times
      temperature_C := data.temperature
      precip_mm := data.precip
      humidity_pct := data.humidity
      wind_m_s := data.wind
      filename := (city.replace " " "_") ++ "_weather.csv" }

/-! ## Helper lemmas -/

theorem summarize_risks_flood (r : ℚ) (t w : List ℚ) :
    (summarize_risks r t w).flood =
      if r ≥ 50 then Level.High else if r ≥ 30 then Level.Medium else Level.Low := by
  simp only [summarize_risks]
  norm_num

theorem summarize_risks_heat (r : ℚ) (t w : List ℚ) :
    (summarize_risks r t w).heat =
      if pyMax t (-999) ≥ 40 then Level.High
      else if pyMax t (-999) ≥ 35 then Level.Medium else Level.Low := by
  simp only [summarize_risks]

theorem summarize_risks_storm (r : ℚ) (t w : List ℚ) :
    (summarize_risks r t w).storm =
      if pyMax w 0 ≥ 15 then Level.High
      else if pyMax w 0 ≥ 8 then Level.Medium else Level.Low := by
  simp only [summarize_risks]
  norm_num

theorem summarize_risks_max_temp (r : ℚ) (t w : List ℚ) :
    (summarize_risks r t w).max_temp = round1 (pyMax t (-999)) := by
  simp only [summarize_risks]

theorem summarize_risks_max_wind (r : ℚ) (t w : List ℚ) :
    (summarize_risks r t w).max_wind = round1 (pyMax w 0) := by
  simp only [summarize_risks]
  norm_num

theorem ite_level_eq_high (x a b : ℚ) :
    ((if x ≥ a then Level.High else if x ≥ b then Level.Medium else Level.Low) = Level.High)
      ↔ x ≥ a := by
  split_ifs <;> simp_all

theorem ite_level_eq_medium (x a b : ℚ) :
    ((if x ≥ a then Level.High else if x ≥ b then Level.Medium else Level.Low) = Level.Medium)
      ↔ (¬ x ≥ a ∧ x ≥ b) := by
  split_ifs <;> simp_all

theorem ite_level_eq_low (x a b : ℚ) :
    ((if x ≥ a then Level.High else if x ≥ b then Level.Medium else Level.Low) = Level.Low)
      ↔ (¬ x ≥ a ∧ ¬ x ≥ b) := by
  split_ifs <;> simp_all

theorem compute_rolling_nil (h : ℤ) : compute_rolling [] h = 0 := by
  simp [compute_rolling]

theorem compute_rolling_short (v : List ℚ) (h : ℤ) (hv : v ≠ [])
    (hlen : (v.length : ℤ) < h) : compute_rolling v h = round2 v.sum := by
  simp [compute_rolling, hv, hlen]

theorem compute_rolling_long (v : List ℚ) (h : ℤ) (h1 : 1 ≤ h)
    (hlen : h ≤ (v.length : ℤ)) :
    compute_rolling v h = round2 (lastEntries h.toNat v).sum := by
  have hv : v ≠ [] := by
    intro h0
    rw [h0] at hlen
    simp at hlen
    omega
  rw [compute_rolling, if_neg hv, if_neg (not_lt.mpr hlen)]
  have hneg : -h < 0 := by omega
  rw [pySliceFrom, if_pos hneg, lastEntries]
  norm_num

theorem get_full_forecast_geo_bad (city : String) (geo : GeoResp) (wx : WxResp)
    (hs : geo.status ≠ 200) : get_full_forecast city geo wx = Except.error 502 := by
  simp [get_full_forecast, geocode_city, hs, bind, Except.bind]

theorem get_full_forecast_no_results (city : String) (geo : GeoResp) (wx : WxResp)
    (hs : geo.status = 200) (hres : geo.results = []) :
    get_full_forecast city geo wx = Except.error 404 := by
  simp [get_full_forecast, geocode_city, hs, hres, bind, Except.bind]

theorem get_full_forecast_wx_bad (city : String) (geo : GeoResp) (wx : WxResp)
    (hs : geo.status = 200) (hres : geo.results ≠ []) (hw : wx.status ≠ 200) :
    get_full_forecast city geo wx = Except.error 502 := by
  rcases hg : geo.results with _ | ⟨c, rest⟩
  · exact absurd hg hres
  · simp [get_full_forecast, geocode_city, fetch_weather, hs, hg, hw, bind, Except.bind]

/-! ## Claim theorems -/

/-- C1: the risk classifier assigns levels by inclusive lower bounds
evaluated top-down with first match winning — flood High iff
rolling_24 ≥ 50, else Medium iff ≥ 30, else Low; heat by the 24h window
maximum against 40/35; storm by the 24h window maximum against 15/8 —
and the documented boundary values classify inclusively (50 → High
flood, 49.999 → Medium, 30 → Medium, 29.999 → Low; temp 40 → High,
35 → Medium, 34.999 → Low; wind 15 → High, 8 → Medium). -/
theorem risk_thresholds_inclusive (r : ℚ) (temps winds : List ℚ) :
    ((summarize_risks r temps winds).flood = Level.High ↔ r ≥ 50) ∧
    ((summarize_risks r temps winds).flood = Level.Medium ↔ (¬ r ≥ 50 ∧ r ≥ 30)) ∧
    ((summarize_risks r temps winds).flood = Level.Low ↔ (¬ r ≥ 50 ∧ ¬ r ≥ 30)) ∧
    ((summarize_risks r temps winds).heat = Level.High ↔ pyMax temps (-999) ≥ 40) ∧
    ((summarize_risks r temps winds).heat = Level.Medium ↔
      (¬ pyMax temps (-999) ≥ 40 ∧ pyMax temps (-999) ≥ 35)) ∧
    ((summarize_risks r temps winds).heat = Level.Low ↔
      (¬ pyMax temps (-999) ≥ 40 ∧ ¬ pyMax temps (-999) ≥ 35)) ∧
    ((summarize_risks r temps winds).storm = Level.High ↔ pyMax winds 0 ≥ 15) ∧
    ((summarize_risks r temps winds).storm = Level.Medium ↔
      (¬ pyMax winds 0 ≥ 15 ∧ pyMax winds 0 ≥ 8)) ∧
    ((summarize_risks r temps winds).storm = Level.Low ↔
      (¬ pyMax winds 0 ≥ 15 ∧ ¬ pyMax winds 0 ≥ 8)) ∧
    (summarize_risks 50 [0] [0]).flood = Level.High ∧
    (summarize_risks (49.999 : ℚ) [0] [0]).flood = Level.Medium ∧
    (summarize_risks 30 [0] [0]).flood = Level.Medium ∧
    (summarize_risks (29.999 : ℚ) [0] [0]).flood = Level.Low ∧
    (summarize_risks 0 [40] [0]).heat = Level.High ∧
    (summarize_risks 0 [35] [0]).heat = Level.Medium ∧
    (summarize_risks 0 [(34.999 : ℚ)] [0]).heat = Level.Low ∧
    (summarize_risks 0 [0] [15]).storm = Level.High ∧
    (summarize_risks 0 [0] [8]).storm = Level.Medium := by
  refine ⟨?_, ?_, ?_, ?_, ?_, ?_, ?_, ?_, ?_, ?_, ?_, ?_, ?_, ?_, ?_, ?_, ?_, ?_⟩
  · rw [summarize_risks_flood]; exact ite_level_eq_high r 50 30
  · rw [summarize_risks_flood]; exact ite_level_eq_medium r 50 30
  · rw [summarize_risks_flood]; exact ite_level_eq_low r 50 30
  · rw [summarize_risks_heat]; exact ite_level_eq_high _ 40 35
  · rw [summarize_risks_heat]; exact ite_level_eq_medium _ 40 35
  · rw [summarize_risks_heat]; exact ite_level_eq_low _ 40 35
  · rw [summarize_risks_storm]; exact ite_level_eq_high _ 15 8
  · rw [summarize_risks_storm]; exact ite_level_eq_medium _ 15 8
  · rw [summarize_risks_storm]; exact ite_level_eq_low _ 15 8
  · rw [summarize_risks_flood]; norm_num
  · rw [summarize_risks_flood]; norm_num
  · rw [summarize_risks_flood]; norm_num
  · rw [summarize_risks_flood]; norm_num
  · rw [summarize_risks_heat]; norm_num [pyMax]
  · rw [summarize_risks_heat]; norm_num [pyMax]
  · rw [summarize_risks_heat]; norm_num [pyMax]
  · rw [summarize_risks_storm]; norm_num [pyMax]
  · rw [summarize_risks_storm]; norm_num [pyMax]

/-- C4: the classifier always returns a definite level — an empty
temperature window yields the -999 sentinel (and the `max_temp` field
-999 after rounding) and classifies heat as Low; an empty wind window
yields the 0.0 default and classifies storm as Low. -/
theorem empty_window_sentinels (r : ℚ) (temps winds : List ℚ) :
    (summarize_risks r [] winds).heat = Level.Low ∧
    (summarize_risks r [] winds).max_temp = -999 ∧
    (summarize_risks r temps []).storm = Level.Low ∧
    (summarize_risks r temps []).max_wind = 0 := by
  refine ⟨?_, ?_, ?_, ?_⟩
  · rw [summarize_risks_heat]; norm_num [pyMax]
  · rw [summarize_risks_max_temp]
    norm_num [pyMax, round1, pyRoundInt, ratFloor]
  · rw [summarize_risks_storm]; norm_num [pyMax]
  · rw [summarize_risks_max_wind]
    norm_num [pyMax, round1, pyRoundInt, ratFloor]

/-- C5: flood classification is monotonic in rolling_24 — with the
temperature and wind windows fixed, a ≤ b implies the flood level at a
is at most the flood level at b in the order Low < Medium < High. -/
theorem flood_monotone_in_rolling (a b : ℚ) (temps winds : List ℚ) (hab : a ≤ b) :
    ((summarize_risks a temps winds).flood).toNat ≤
      ((summarize_risks b temps winds).flood).toNat := by
  rw [summarize_risks_flood, summarize_risks_flood]
  split_ifs <;> simp [Level.toNat] <;> linarith

/-- Witness for C5: instantiated at 20 ≤ 40. -/
theorem flood_monotone_in_rolling_witness :
    (20 : ℚ) ≤ 40 ∧
      ((summarize_risks 20 [] []).flood).toNat ≤ ((summarize_risks 40 [] []).flood).toNat :=
  ⟨by norm_num, flood_monotone_in_rolling 20 40 [] [] (by norm_num)⟩

/-- C2 counterexample: at window size 0 on the non-empty list [1] the
claim fails — the code returns the full-list sum 1.0 (Python `v[-0:]`
is the whole list), not `round(sum of the last 0 entries, 2) = 0`. -/
theorem compute_rolling_zero_window_cex :
    ¬ compute_rolling [1] 0 = round2 (lastEntries 0 [(1 : ℚ)]).sum := by
  norm_num [compute_rolling, pySliceFrom, lastEntries, round2, pyRoundInt, ratFloor]

/-- C2 (amended to window sizes h ≥ 1): `rollingSum` returns 0.0 on the
empty list, `round(sum(v), 2)` when the non-empty list is shorter than
the window, and `round(sum of the last h entries, 2)` otherwise. -/
theorem compute_rolling_spec_pos_window (v : List ℚ) (h : ℤ) (hpos : 1 ≤ h) :
    (v = [] → compute_rolling v h = 0) ∧
    (v ≠ [] → (v.length : ℤ) < h → compute_rolling v h = round2 v.sum) ∧
    (h ≤ (v.length : ℤ) → compute_rolling v h = round2 (lastEntries h.toNat v).sum) := by
  refine ⟨?_, ?_, ?_⟩
  · intro hv
    rw [hv]
    exact compute_rolling_nil h
  · exact compute_rolling_short v h
  · exact compute_rolling_long v h hpos

/-- Witness for C2: a window of 1 on [2, 3] sums the final entry. -/
theorem compute_rolling_spec_pos_window_witness :
    (1 : ℤ) ≤ 1 ∧ compute_rolling [2, 3] 1 = round2 (lastEntries 1 [(2 : ℚ), 3]).sum :=
  ⟨by norm_num,
    (compute_rolling_spec_pos_window [2, 3] 1 (by norm_num)).2.2 (by norm_num)⟩

/-- C9 counterexample: the claim's parenthetical extension to negative
window sizes fails — for windowHours = -1 on [1, 1, 1] the code slices
`v[1:]` and returns 2.0, not the full-history sum 3.0. -/
theorem compute_rolling_negative_window_cex :
    compute_rolling [1, 1, 1] (-1) = 2 ∧
      round2 [(1 : ℚ), 1, 1].sum = 3 ∧ (2 : ℚ) ≠ 3 := by
  refine ⟨?_, ?_, by norm_num⟩
  · rw [compute_rolling, if_neg (by simp), if_neg (by norm_num)]
    norm_num [pySliceFrom, round2, pyRoundInt, ratFloor]
  · norm_num [round2, pyRoundInt, ratFloor]

/-- C9 (amended to windowHours = 0 only): on a non-empty list a
zero-size window returns the rounded full-history sum, because the
Python slice `values[-0:]` is the whole list. -/
theorem compute_rolling_full_history_at_zero (v : List ℚ) (hv : v ≠ []) :
    compute_rolling v 0 = round2 v.sum := by
  rw [compute_rolling, if_neg hv, if_neg (by omega)]
  simp [pySliceFrom]

/-- Witness for C9: the zero-size window on [7] returns round2 7. -/
theorem compute_rolling_full_history_at_zero_witness :
    [(7 : ℚ)] ≠ [] ∧ compute_rolling [7] 0 = round2 [(7 : ℚ)].sum :=
  ⟨by simp, compute_rolling_full_history_at_zero [7] (by simp)⟩

/-- C6: each language's clauses are joined with single spaces, and an
empty Hindi (resp. Marathi) clause list makes that advisory the whole
assembled English string; in particular for {flood: Low, heat: Low,
storm: Medium} the English advisory is the flood-low clause plus the
English-only storm-medium clause, and both Hindi and Marathi equal it. -/
theorem advisory_join_and_fallback (r : RiskSummary) :
    ((build_bilingual_advisories r).advisory_en =
      String.intercalate " " (en_clauses r.flood r.heat r.storm)) ∧
    (hi_clauses r.flood r.heat r.storm ≠ [] →
      (build_bilingual_advisories r).advisory_hi =
        String.intercalate " " (hi_clauses r.flood r.heat r.storm)) ∧
    (hi_clauses r.flood r.heat r.storm = [] →
      (build_bilingual_advisories r).advisory_hi =
        (build_bilingual_advisories r).advisory_en) ∧
    (mr_clauses r.flood r.heat r.storm ≠ [] →
      (build_bilingual_advisories r).advisory_mr =
        String.intercalate " " (mr_clauses r.flood r.heat r.storm)) ∧
    (mr_clauses r.flood r.heat r.storm = [] →
      (build_bilingual_advisories r).advisory_mr =
        (build_bilingual_advisories r).advisory_en) ∧
    (build_bilingual_advisories ⟨Level.Low, Level.Low, Level.Medium, 0, 0⟩).advisory_en =
      "Flood risk is low — normal conditions. Moderate winds — be cautious while working at heights." ∧
    (build_bilingual_advisories ⟨Level.Low, Level.Low, Level.Medium, 0, 0⟩).advisory_hi =
      (build_bilingual_advisories ⟨Level.Low, Level.Low, Level.Medium, 0, 0⟩).advisory_en ∧
    (build_bilingual_advisories ⟨Level.Low, Level.Low, Level.Medium, 0, 0⟩).advisory_mr =
      (build_bilingual_advisories ⟨Level.Low, Level.Low, Level.Medium, 0, 0⟩).advisory_en := by
  refine ⟨rfl, ?_, ?_, ?_, ?_, ?_, ?_, ?_⟩
  · intro hne
    simp [build_bilingual_advisories, hne]
  · intro hnil
    simp [build_bilingual_advisories, hnil]
  · intro hne
    simp [build_bilingual_advisories, hne]
  · intro hnil
    simp [build_bilingual_advisories, hnil]
  · simp [build_bilingual_advisories, en_clauses, hi_clauses, mr_clauses]
    decide
  · simp [build_bilingual_advisories, en_clauses, hi_clauses, mr_clauses]
  · simp [build_bilingual_advisories, en_clauses, hi_clauses, mr_clauses]

/-- Witness for C6: at {flood: Low, heat: Low, storm: Medium} both
fallback implications fire, so Hindi and Marathi equal English. -/
theorem advisory_join_and_fallback_witness :
    hi_clauses Level.Low Level.Low Level.Medium = [] ∧
    (build_bilingual_advisories ⟨Level.Low, Level.Low, Level.Medium, 0, 0⟩).advisory_hi =
      (build_bilingual_advisories ⟨Level.Low, Level.Low, Level.Medium, 0, 0⟩).advisory_en :=
  ⟨by decide,
    (advisory_join_and_fallback ⟨Level.Low, Level.Low, Level.Medium, 0, 0⟩).2.2.1 (by decide)⟩

/-- C7: the composed English advisory is never empty — a normal/low
clause heads the English list whenever flood is Low, so at least one
English clause is always present. -/
theorem advisory_en_nonempty (r : RiskSummary) :
    (build_bilingual_advisories r).advisory_en ≠ "" ∧
    (r.flood = Level.Low → ∃ rest, en_clauses r.flood r.heat r.storm =
      "Flood risk is low — normal conditions." :: rest) := by
  obtain ⟨f, h, s, mt, mw⟩ := r
  constructor
  · cases f <;> cases h <;> cases s <;>
      simp [build_bilingual_advisories, en_clauses, hi_clauses, mr_clauses] <;>
      decide
  · intro hf
    simp only at hf
    subst hf
    cases h <;> cases s <;> simp [en_clauses]

/-- Witness for C7: the all-Low configuration has the normal/low clause
and a non-empty English advisory. -/
theorem advisory_en_nonempty_witness :
    (build_bilingual_advisories ⟨Level.Low, Level.Low, Level.Low, 0, 0⟩).advisory_en ≠ "" ∧
    ∃ rest, en_clauses Level.Low Level.Low Level.Low =
      "Flood risk is low — normal conditions." :: rest :=
  ⟨(advisory_en_nonempty ⟨Level.Low, Level.Low, Level.Low, 0, 0⟩).1,
    (advisory_en_nonempty ⟨Level.Low, Level.Low, Level.Low, 0, 0⟩).2 rfl⟩

/-- C10: all three advisory strings are non-empty for every risk
configuration — English always gains a clause, and Hindi/Marathi are
either their own non-empty joined lists or the non-empty English
fallback. -/
theorem advisories_all_nonempty (r : RiskSummary) :
    (build_bilingual_advisories r).advisory_en ≠ "" ∧
    (build_bilingual_advisories r).advisory_hi ≠ "" ∧
    (build_bilingual_advisories r).advisory_mr ≠ "" := by
  obtain ⟨f, h, s, mt, mw⟩ := r
  cases f <;> cases h <;> cases s <;>
    refine ⟨?_, ?_, ?_⟩ <;>
    simp [build_bilingual_advisories, en_clauses, hi_clauses, mr_clauses] <;>
    decide

/-- C3: when the city resolves to exactly one location and the forecast
has 30 hourly entries whose precipitation sums to 55 over the last 24
and 5 over the 6 before, with last-24 maximum temperature 41 and
maximum wind 5, the payload has rolling_24 = 55, rolling_72 = 60 and
risk {flood: High, heat: High, storm: Low}. -/
theorem end_to_end_scenario (city name country : String) (lat lon : ℚ)
    (times : List String) (temps precip hum wind : List ℚ)
    (hpl : precip.length = 30) (htl : temps.length = 30) (hwl : wind.length = 30)
    (h24 : (precip.drop 6).sum = 55) (h6 : (precip.take 6).sum = 5)
    (hmt : pyMax (temps.drop 6) (-999) = 41) (hmw : pyMax (wind.drop 6) 0 = 5) :
    ∃ p, get_full_forecast city ⟨200, [⟨name, country, lat, lon⟩]⟩
        ⟨200, ⟨times, temps, precip, hum, wind⟩⟩ = Except.ok p ∧
      p.rolling_24 = 55 ∧ p.rolling_72 = 60 ∧
      p.risk.flood = Level.High ∧ p.risk.heat = Level.High ∧ p.risk.storm = Level.Low := by
  have hvne : precip ≠ [] := by
    intro h0; rw [h0] at hpl; simp at hpl
  have hr24 : compute_rolling precip 24 = 55 := by
    rw [compute_rolling_long precip 24 (by norm_num) (by rw [hpl]; norm_num)]
    have ht24 : (30 : ℕ) - Int.toNat 24 = 6 := rfl
    simp only [lastEntries, hpl, ht24]
    rw [h24]
    norm_num [round2, pyRoundInt, ratFloor]
  have hsum : precip.sum = 60 := by
    have hcat := List.take_append_drop 6 precip
    calc precip.sum = (List.take 6 precip ++ List.drop 6 precip).sum := by rw [hcat]
    _ = 5 + 55 := by rw [List.sum_append, h6, h24]
    _ = 60 := by norm_num
  have hr72 : compute_rolling precip 72 = 60 := by
    rw [compute_rolling_short precip 72 hvne (by rw [hpl]; norm_num), hsum]
    norm_num [round2, pyRoundInt, ratFloor]
  simp only [get_full_forecast, geocode_city, fetch_weather, bind, Except.bind, pure,
    Except.pure]
  norm_num
  refine ⟨hr24, hr72, ?_, ?_, ?_⟩
  · rw [summarize_risks_flood, hr24]
    norm_num
  · simp only [summarize_risks_heat, htl]
    norm_num [hmt]
  · simp only [summarize_risks_storm, hwl]
    norm_num [hmw]

/-- Witness for C3: a concrete 30-hour series — 5 mm in hour 0, 55 mm
in hour 6, a 41 °C spike and a 5 m/s gust inside the last-24 window. -/
theorem end_to_end_scenario_witness :
    ∃ p, get_full_forecast "Pune" ⟨200, [⟨"Pune", "India", 18.52, 73.86⟩]⟩
        ⟨200, ⟨[],
          [0, 0, 0, 0, 0, 0, 41, 0, 0, 0, 0, 0, 0, 0, 0, 0, 0, 0, 0, 0, 0, 0, 0, 0, 0, 0, 0, 0, 0, 0],
          [5, 0, 0, 0, 0, 0, 55, 0, 0, 0, 0, 0, 0, 0, 0, 0, 0, 0, 0, 0, 0, 0, 0, 0, 0, 0, 0, 0, 0, 0],
          [],
          [0, 0, 0, 0, 0, 0, 5, 0, 0, 0, 0, 0, 0, 0, 0, 0, 0, 0, 0, 0, 0, 0, 0, 0, 0, 0, 0, 0, 0, 0]⟩⟩ =
        Except.ok p ∧
      p.rolling_24 = 55 ∧ p.rolling_72 = 60 ∧
      p.risk.flood = Level.High ∧ p.risk.heat = Level.High ∧ p.risk.storm = Level.Low :=
  end_to_end_scenario "Pune" "Pune" "India" 18.52 73.86 [] _ _ [] _
    (by simp) (by simp) (by simp)
    (by norm_num [List.sum_cons])
    (by norm_num [List.sum_cons])
    (by norm_num [pyMax, List.foldl, max_def])
    (by norm_num [pyMax, List.foldl, max_def])

/-- C8 counterexample: `export_csv` performs no empty-city check — with
an empty city and a geocoding response with zero matches it returns
404, not the claimed 400. -/
theorem export_csv_empty_city_cex :
    export_csv "" ⟨200, []⟩ ⟨200, ⟨[], [], [], [], []⟩⟩ = Except.error 404 ∧
      (404 : ℕ) ≠ 400 :=
  ⟨rfl, by decide⟩

/-- C8 (amended): `city_forecast` returns 400 on an empty city, 404
when geocoding succeeds with zero matches, and 502 when either upstream
returns a non-success status; `export_csv` shares the 404 and 502
conditions but has no empty-city check, so an empty city proceeds to
geocoding. -/
theorem endpoint_error_conditions (city : String) (geo : GeoResp) (wx : WxResp) :
    (city = "" → city_forecast city geo wx = Except.error 400) ∧
    (city ≠ "" → geo.status ≠ 200 → city_forecast city geo wx = Except.error 502) ∧
    (city ≠ "" → geo.status = 200 → geo.results = [] →
      city_forecast city geo wx = Except.error 404) ∧
    (city ≠ "" → geo.status = 200 → geo.results ≠ [] → wx.status ≠ 200 →
      city_forecast city geo wx = Except.error 502) ∧
    (geo.status ≠ 200 → export_csv city geo wx = Except.error 502) ∧
    (geo.status = 200 → geo.results = [] → export_csv city geo wx = Except.error 404) ∧
    (geo.status = 200 → geo.results ≠ [] → wx.status ≠ 200 →
      export_csv city geo wx = Except.error 502) := by
  refine ⟨?_, ?_, ?_, ?_, ?_, ?_, ?_⟩
  · intro hc
    simp [city_forecast, hc]
  · intro hc hs
    simp [city_forecast, hc, get_full_forecast_geo_bad city geo wx hs]
  · intro hc hs hres
    simp [city_forecast, hc, get_full_forecast_no_results city geo wx hs hres]
  · intro hc hs hres hw
    simp [city_forecast, hc, get_full_forecast_wx_bad city geo wx hs hres hw]
  · intro hs
    simp [export_csv, get_full_forecast_geo_bad city geo wx hs, bind, Except.bind]
  · intro hs hres
    simp [export_csv, get_full_forecast_no_results city geo wx hs hres, bind, Except.bind]
  · intro hs hres hw
    simp [export_csv, get_full_forecast_wx_bad city geo wx hs hres hw, bind, Except.bind]

/-- Witness for C8: a failed geocoding upstream (status 500) surfaces
as 502 from both endpoints for a non-empty city. -/
theorem endpoint_error_conditions_witness :
    city_forecast "Pune" ⟨500, []⟩ ⟨200, ⟨[], [], [], [], []⟩⟩ = Except.error 502 ∧
    export_csv "Pune" ⟨500, []⟩ ⟨200, ⟨[], [], [], [], []⟩⟩ = Except.error 502 :=
  ⟨(endpoint_error_conditions "Pune" ⟨500, []⟩ ⟨200, ⟨[], [], [], [], []⟩⟩).2.1
      (by decide) (by decide),
    (endpoint_error_conditions "Pune" ⟨500, []⟩ ⟨200, ⟨[], [], [], [], []⟩⟩).2.2.2.2.1
      (by decide)⟩

end FloodInsights
